import Mathlib

/-!
Shallow embedding of the runtime-monitor agent
(`src/python-agent/runtime_monitor.py`) and proofs about its
instrumentation, serialization, connection-lifecycle, sandbox-execution
and module-introspection behaviour.

The embedding mirrors the source file as it stands in the repository,
including the damage done to it by the repository's own codemod
(`tools/python-mechanic/codemods/fix_advanced_types.py` rewrote many
`return X` statements into `return None  # ...`, leaving the original
expression behind in the comment).  Wherever a body was mangled this way
the embedding returns the Python value `None`, exactly as the shipped
code does.
-/

namespace RuntimeMonitor

/-- Python runtime values, as far as the agent's serializer and sandbox
observe them.  `pyObj` is an opaque object carrying its type name, its
module, the result of `str(value)` (`none` models a `__str__` that
raises) and the result of `len(value)` (`none` = no `__len__`,
`some none` = a `__len__` that raises, `some (some n)` = length `n`).
`pyFunc` is a callable. -/
inductive PyValue where
  | pyStr (s : String)
  | pyInt (n : Int)
  | pyBool (b : Bool)
  | pyNone
  | pyList (xs : List PyValue)
  | pyTuple (xs : List PyValue)
  | pyDict (es : List (String × PyValue))
  | pyObj (ty mod : String) (strForm : Option String) (lenForm : Option (Option Nat))
  | pyFunc (name : String)

/-- Python `value[:n]` on a string: the first `n` characters. -/
def strTrunc (n : Nat) (s : String) : String :=
  ⟨s.data.take n⟩

mutual

/-- Python `str(value)`: `none` models the conversion raising.  Objects
use their `strForm`; containers render their elements (and fail as soon
as an element's textual form fails). -/
def strOf : PyValue → Option String
  | .pyStr s => some s
  | .pyInt n => some (toString n)
  | .pyBool b => some (if b then "True" else "False")
  | .pyNone => some "None"
  | .pyList xs =>
    (strOfList xs).map (fun ps => "[" ++ String.intercalate ", " ps ++ "]")
  | .pyTuple xs =>
    (strOfList xs).map (fun ps => "(" ++ String.intercalate ", " ps ++ ")")
  | .pyDict es =>
    (strOfEntries es).map (fun ps => "\x7b" ++ String.intercalate ", " ps ++ "\x7d")
  | .pyObj _ _ strForm _ => strForm
  | .pyFunc n => some ("<function " ++ n ++ ">")

/-- Textual forms of the elements of a list value. -/
def strOfList : List PyValue → Option (List String)
  | [] => some []
  | v :: rest =>
    match strOf v, strOfList rest with
    | some s, some ss => some (s :: ss)
    | _, _ => none

/-- Textual forms of the entries of a dict value. -/
def strOfEntries : List (String × PyValue) → Option (List String)
  | [] => some []
  | (k, v) :: rest =>
    match strOf v, strOfEntries rest with
    | some s, some ss => some ((k ++ ": " ++ s) :: ss)
    | _, _ => none

end

/-- The serializer's output space (`RuntimeMonitorAgent._serialize_value`).
`serNone` is the Python `None` that the mangled primitive and
list/tuple branches return; `dictS` is the dict-comprehension result;
`objDesc` is the opaque-object descriptor; `serError` is the
`serialization_error` fallback built in the `except` handler. -/
inductive Ser where
  | serNone
  | dictS (entries : List (String × Ser))
  | objDesc (ty mod rep : String) (size : Option Nat)
  | serError (rep : String)

mutual

/-- The body of the `try` block of `_serialize_value`, line by line:
primitives return `None` (mangled `return None  # ...alue`), lists and
tuples return `None` (mangled comprehension), dicts serialize their
first 10 entries, any other object becomes a descriptor whose fields
raise when `str(value)` or `len(value)` raise.  `Except.error ()` is an
exception escaping the `try` body. -/
def serializeTry : PyValue → Except Unit Ser
  | .pyStr _ => .ok .serNone
  | .pyInt _ => .ok .serNone
  | .pyBool _ => .ok .serNone
  | .pyNone => .ok .serNone
  | .pyList _ => .ok .serNone
  | .pyTuple _ => .ok .serNone
  | .pyDict es => (serializeEntries 10 es).map Ser.dictS
  | .pyObj ty mod strForm lenForm =>
    match strForm with
    | none => .error ()
    | some s =>
      match lenForm with
      | some none => .error ()
      | some (some n) => .ok (.objDesc ty mod (strTrunc 200 s) (some n))
      | none => .ok (.objDesc ty mod (strTrunc 200 s) none)
  | .pyFunc n =>
    .ok (.objDesc "function" "builtins" (strTrunc 200 ("<function " ++ n ++ ">")) none)

/-- `{k: self._serialize_value(v) for k, v in list(value.items())[:10]}`:
serialize the values of the first `fuel` entries in iteration order; an
exception from a recursive call escapes the comprehension. -/
def serializeEntries : Nat → List (String × PyValue) → Except Unit (List (String × Ser))
  | _, [] => .ok []
  | 0, _ :: _ => .ok []
  | fuel + 1, (k, v) :: rest =>
    match serializeValue v with
    | .error e => .error e
    | .ok r =>
      match serializeEntries fuel rest with
      | .error e => .error e
      | .ok rs => .ok ((k, r) :: rs)

/-- `RuntimeMonitorAgent._serialize_value`: run the `try` body; on an
escaping exception the `except Exception` handler returns
`{'type': 'serialization_error', 'repr': str(value)[:100]}` — and that
`str(value)` call can itself raise, in which case the exception leaves
`_serialize_value` altogether (`Except.error ()`). -/
def serializeValue (v : PyValue) : Except Unit Ser :=
  match serializeTry v with
  | .ok r => .ok r
  | .error _ =>
    match strOf v with
    | some s => .ok (.serError (strTrunc 100 s))
    | none => .error ()

end

/-! ## Events, channel messages and agent state -/

/-- A Python exception as the agent observes it: its type name and its
`str(e)` form.  The bare `raise` in the interceptor re-raises the very
same value. -/
structure PyErr where
  ty : String
  msg : String
deriving DecidableEq

/-- `traceback.format_exc()` for an in-flight exception: a non-empty
textual trace ending in the exception's type and message. -/
def traceOf (e : PyErr) : String :=
  "Traceback (most recent call last): " ++ e.ty ++ ": " ++ e.msg

/-- One `execution_data` payload.  Optional fields are present exactly
when the corresponding key is put into the Python dict. -/
structure ExecEvent where
  type : String
  callId : String
  functionName : String
  timestamp : Nat
  parameters : Option (List (String × Ser))
  duration : Option Nat
  success : Option Bool
  returnValue : Option Ser
  error : Option String
  stackTrace : Option String

/-- The `call_enter` dict built at the top of `_execute_function`. -/
def callEnterEvent (callId name : String) (ts : Nat) (params : List (String × Ser)) :
    ExecEvent :=
  ⟨"call_enter", callId, name, ts, some params, none, none, none, none, none⟩

/-- The success `call_exit` dict of `_execute_function`. -/
def callSuccessEvent (callId name : String) (ts dur : Nat) (ret : Ser) : ExecEvent :=
  ⟨"call_exit", callId, name, ts, none, some dur, some true, some ret, none, none⟩

/-- The error `call_exit` dict of `_execute_function`. -/
def callErrorEvent (callId name : String) (ts dur : Nat) (e : PyErr) : ExecEvent :=
  ⟨"call_exit", callId, name, ts, none, some dur, some false, none, some e.msg,
    some (traceOf e)⟩

/-- A message published on the Socket.IO channel by the components the
claims cover. -/
inductive Msg where
  | executionData (e : ExecEvent)
  | nodeData (nodes connections : List String)
  | functionMonitoringData (functionName : String) (callCount : Nat)
      (avgExecMillis : Nat)

/-- The agent's connection-lifecycle state plus the trace of messages it
has actually published on the channel.  `sent` grows only when
`self.sio.emit` runs. -/
structure AgentState where
  connected : Bool
  appId : Option Nat
  sent : List Msg

/-- `RuntimeMonitorAgent._send_execution_event`: publish only when both
`self.connected` and `self.app_id` are set; otherwise print a local
notice and keep no copy of the event (nothing is buffered). -/
def sendExecutionEvent (st : AgentState) (e : ExecEvent) : AgentState :=
  if st.connected ∧ st.appId.isSome then
    { st with sent := st.sent ++ [.executionData e] }
  else
    st

/-- `RuntimeMonitorAgent.define_workflow_nodes`: publish `node_data`
only when both `self.connected` and `self.app_id` are set. -/
def defineWorkflowNodes (st : AgentState) (nodes connections : List String) : AgentState :=
  if st.connected ∧ st.appId.isSome then
    { st with sent := st.sent ++ [.nodeData nodes connections] }
  else
    st

/-! ## Connection lifecycle handlers -/

/-- The `connect` Socket.IO handler: set the connected flag (the
registration request goes to the hub, not to the telemetry trace we
model). -/
def onConnect (st : AgentState) : AgentState :=
  { st with connected := true }

/-- The `disconnect` Socket.IO handler: it sets `self.connected = False`
and touches nothing else — in particular `self.app_id` keeps its
value. -/
def onDisconnect (st : AgentState) : AgentState :=
  { st with connected := false }

/-- The `registered` handler: store the hub-assigned application id. -/
def onRegistered (st : AgentState) (appId : Nat) : AgentState :=
  { st with appId := some appId }

/-- `RuntimeMonitorAgent.disconnect_from_hub`: when connected, request a
transport disconnect, whose notification runs the `disconnect`
handler. -/
def disconnectFromHub (st : AgentState) : AgentState :=
  if st.connected then onDisconnect st else st

/-! ## The call interceptor -/

/-- The distinguished exception standing for a failure raised while
serializing the return value inside the interceptor's `try` block. -/
def serializeRaised : PyErr :=
  ⟨"Exception", "serialization failure"⟩

/-- `RuntimeMonitorAgent._execute_function` for one invocation.
`startTime` is `time.time()` in milliseconds at entry, `dur` the
milliseconds the target takes, `outcome` what `func(*args, **kwargs)`
does.  It emits `call_enter`, runs the target inside `try`, emits the
matching `call_exit`, and — because the codemod mangled
`return result` into `return None  # ...esult` — hands `None` back to
the caller on the success path; on the error path the bare `raise`
re-raises the original exception. -/
def executeFunction (st : AgentState) (callId name : String)
    (params : List (String × Ser)) (startTime dur : Nat)
    (outcome : Except PyErr PyValue) :
    AgentState × Except PyErr (Option PyValue) :=
  let st₁ := sendExecutionEvent st (callEnterEvent callId name startTime params)
  match outcome with
  | .ok result =>
    match serializeValue result with
    | .ok ser =>
      let st₂ := sendExecutionEvent st₁
        (callSuccessEvent callId name (startTime + dur) dur ser)
      (st₂, .ok none)
    | .error _ =>
      let st₂ := sendExecutionEvent st₁
        (callErrorEvent callId name (startTime + dur) dur serializeRaised)
      (st₂, .error serializeRaised)
  | .error e =>
    let st₂ := sendExecutionEvent st₁
      (callErrorEvent callId name (startTime + dur) dur e)
    (st₂, .error e)

/-- `RuntimeMonitorAgent.monitor_function`: the decorator factory.  Its
`return decorator` was mangled into `return None  # ...ecorator`, so the
factory yields no decorator at all — applying `@monitor_function()`
raises at decoration time. -/
def monitorFunction (_funcName : Option String) : Option Unit :=
  none

/-! ## Periodic function-monitoring statistics -/

/-- One iteration of the `emit_monitoring_data` loop inside
`_start_function_monitoring`: after the sleep, break when no longer
connected; otherwise bump the synthetic counters and publish
`function_monitoring_data` directly via `self.sio.emit` — with no check
of `self.app_id`.  Returns the new state and the updated counter, or
`none` when the loop breaks.  `avgExecMillis` models
`0.1 + callCount * 0.01` seconds in milliseconds. -/
def emitMonitoringStep (st : AgentState) (functionName : String) (callCount : Nat) :
    AgentState × Option Nat :=
  if st.connected = false then
    (st, none)
  else
    let count := callCount + 1
    ({ st with sent := st.sent ++
        [.functionMonitoringData functionName count (100 + count * 10)] },
      some count)

/-! ## Sandboxed executor -/

/-- What the submitted code does on the worker thread: finish after
`secs` seconds printing `output` and leaving `locals` bound, raise after
`secs` seconds, or never finish.  This is how the host interpreter's
`exec` behaves on the code string — external to the agent, so the
executor is specified over every possible behaviour. -/
inductive ExecOutcome where
  | completed (output : String) (locals : List (String × PyValue)) (secs : Nat)
  | raised (e : PyErr) (secs : Nat)
  | diverges

/-- The exception built by
`raise Exception(f"Code execution timed out after {timeout} seconds")`
when `future.result(timeout=timeout)` expires. -/
def timeoutErr (timeout : Nat) : PyErr :=
  ⟨"Exception", "Code execution timed out after " ++ toString timeout ++ " seconds"⟩

/-- `future.result(timeout=timeout)` followed by the `except
TimeoutError` re-raise: the worker's value or exception when it finishes
within the deadline, the timeout exception otherwise. -/
def futureResult (outcome : ExecOutcome) (timeout : Nat) :
    Except PyErr (String × List (String × PyValue)) :=
  match outcome with
  | .completed output locals secs =>
    if secs ≤ timeout then .ok (output, locals) else .error (timeoutErr timeout)
  | .raised e secs =>
    if secs ≤ timeout then .error e else .error (timeoutErr timeout)
  | .diverges => .error (timeoutErr timeout)

/-- Seconds from submitting the code to `_execute_python_code`
returning to its caller.  `future.result(timeout=...)` itself waits at
most `timeout` seconds, but leaving the `with ThreadPoolExecutor(...)`
block runs `shutdown(wait=True)`, which joins the worker thread before
control — normal or exceptional — can continue; so the call returns
after the worker's own finishing time, and never (`none`) when the
submitted code never finishes. -/
def totalWaitSecs : ExecOutcome → Option Nat
  | .completed _ _ secs => some secs
  | .raised _ secs => some secs
  | .diverges => none

/-- Python `s.startswith(pre)`, over the character lists. -/
def pyStartsWith (pre s : String) : Bool :=
  pre.data.isPrefixOf s.data

/-- Is a Python value callable? -/
def isCallable : PyValue → Bool
  | .pyFunc _ => true
  | _ => false

/-- The binding-collection loop of `_execute_python_code`: keep entries
whose name has no `__` prefix and whose value is not callable
(`json.dumps(value, default=str)` succeeds on every such value in this
value space, so each survivor is kept as-is). -/
def collectVariables (locals : List (String × PyValue)) : List (String × PyValue) :=
  locals.filter (fun kv => !pyStartsWith "__" kv.1 && !isCallable kv.2)

/-- Where `sys.stdout` points. -/
inductive OutStream where
  | original
  | captured
deriving DecidableEq

/-- The dict `_execute_python_code` returns.  The success dict has
`output`, `variables`, `exitCode = 0`, `success = True`; the failure
dict has `output = str(e)`, `error = traceback`, `exitCode = 1`,
`success = False`. -/
structure SandboxResult where
  output : String
  varBindings : Option (List (String × PyValue))
  error : Option String
  exitCode : Nat
  success : Bool

/-- The continuation of `RuntimeMonitorAgent._execute_python_code`
once the `with ThreadPoolExecutor(...)` block has been exited — that
is, once `shutdown(wait=True)` has joined the worker, which happens
exactly when the submitted code eventually finishes.  On a worker
completion within the deadline the old stream is restored and the
success dict built; on any escaped exception (worker error or deadline
expiry) the `except` handler at line 517 builds the failure dict —
without ever restoring `sys.stdout`.  Returns the result dict and where
`sys.stdout` points afterwards.  This continuation is reached only for
worker behaviours that finish; `executePythonCodeRun` below adds the
join itself and models the full call. -/
def executePythonCode (outcome : ExecOutcome) (timeout : Nat) (stream : OutStream) :
    SandboxResult × OutStream :=
  let oldStdout := stream
  match futureResult outcome timeout with
  | .ok (output, locals) =>
    (⟨output, some (collectVariables locals), none, 0, true⟩, oldStdout)
  | .error e =>
    (⟨e.msg, none, some (traceOf e), 1, false⟩, .captured)

/-- The complete call `_execute_python_code(code, timeout)`, including
the exit of the `with ThreadPoolExecutor(...)` block: leaving the block
runs `shutdown(wait=True)`, which joins the worker thread before the
in-flight return or exception can continue to the `return` statement or
the `except` handler.  When the submitted code eventually finishes the
join returns and the call completes as in `executePythonCode`; when the
code never finishes the join blocks forever and the call never returns
(`none`). -/
def executePythonCodeRun (outcome : ExecOutcome) (timeout : Nat) (stream : OutStream) :
    Option (SandboxResult × OutStream) :=
  match outcome with
  | .diverges => none
  | .completed output locals secs =>
    some (executePythonCode (.completed output locals secs) timeout stream)
  | .raised e secs =>
    some (executePythonCode (.raised e secs) timeout stream)

/-! ## Module introspector -/

/-- Classification of a module member as `_import_module` sees it:
a function, a class, some other callable, or a plain value with its
type name and whether `json.dumps(obj, default=str)` succeeds on it. -/
inductive MemberKind where
  | func
  | cls
  | callableOther
  | value (typeName : String) (jsonable : Bool)

/-- How the host import system treats a module name: a loadable module
(its `__file__` and its public members), an `ImportError`, or some other
failure during introspection. -/
inductive ImportOutcome where
  | found (file : Option String) (members : List (String × MemberKind))
  | importError (cause : String)
  | otherError (cause : String)

/-- The `module_info` dict built on the success path of
`_import_module` (before the mangled return throws it away). -/
structure ModuleInfo where
  moduleName : String
  aliasName : String
  imported : Bool
  file : String
  functions : List String
  classes : List String
  varBindings : List (String × String)

/-- The member-classification loop of `_import_module`, restricted to
public names (no `_` prefix): functions and classes are listed by name;
other non-callable members go into `variables` as their type name when
the serializability probe passes, and are silently skipped otherwise;
other callables are skipped. -/
def classifyMembers (members : List (String × MemberKind)) :
    List String × List String × List (String × String) :=
  match members with
  | [] => ([], [], [])
  | (name, kind) :: rest =>
    let (fs, cs, vs) := classifyMembers rest
    if pyStartsWith "_" name then
      (fs, cs, vs)
    else
      match kind with
      | .func => (name :: fs, cs, vs)
      | .cls => (fs, name :: cs, vs)
      | .callableOther => (fs, cs, vs)
      | .value typeName jsonable =>
        if jsonable then (fs, cs, (name, typeName) :: vs) else (fs, cs, vs)

/-- The `module_info` dict of `_import_module`'s success path, lines
569–591 of the source. -/
def buildModuleInfo (moduleName aliasName : String) (file : Option String)
    (members : List (String × MemberKind)) : ModuleInfo :=
  let (fs, cs, vs) := classifyMembers members
  { moduleName := moduleName
    aliasName := if aliasName = "" then moduleName else aliasName
    imported := true
    file := file.getD "Built-in module"
    functions := fs
    classes := cs
    varBindings := vs }

/-- `RuntimeMonitorAgent._import_module`: on `ImportError` raise
`Exception("Failed to import module '...': ...")`; on any other failure
raise `Exception("Error importing module '...': ...")`; on success build
`module_info` — and then, because `return module_info` was mangled into
`return None  # ...odule_info`, return `None` to the caller. -/
def importModule (moduleName aliasName : String) (outcome : ImportOutcome) :
    Except PyErr (Option ModuleInfo) :=
  match outcome with
  | .found file members =>
    let _info := buildModuleInfo moduleName aliasName file members
    .ok none
  | .importError cause =>
    .error ⟨"Exception", "Failed to import module '" ++ moduleName ++ "': " ++ cause⟩
  | .otherError cause =>
    .error ⟨"Exception", "Error importing module '" ++ moduleName ++ "': " ++ cause⟩

/-- The worker-side behaviour of the snippet `print(1+1)` under the host
interpreter: it finishes immediately, prints `2` followed by a newline,
and binds nothing. -/
def printOnePlusOne : ExecOutcome :=
  .completed "2\n" [] 0

/-- Does the submitted code finish (normally or by raising) within
`timeout` seconds? -/
def finishesWithin : ExecOutcome → Nat → Prop
  | .completed _ _ secs, timeout => secs ≤ timeout
  | .raised _ secs, timeout => secs ≤ timeout
  | .diverges, _ => False

/-! ## Auxiliary lemmas -/

/-- Truncation `value[:n]` yields at most `n` characters. -/
theorem strTrunc_length_le (n : Nat) (s : String) : (strTrunc n s).length ≤ n := by
  show (s.data.take n).length ≤ n
  simp

/-- The `try` body of `_serialize_value` never produces the
`serialization_error` descriptor itself; that shape comes only from the
`except` handler. -/
theorem serializeTry_ne_serError (v : PyValue) (r : String) :
    serializeTry v ≠ .ok (.serError r) := by
  match v with
  | .pyStr _ | .pyInt _ | .pyBool _ | .pyNone | .pyList _ | .pyTuple _ | .pyFunc _ =>
    simp [serializeTry]
  | .pyDict es =>
    simp only [serializeTry]
    cases h : serializeEntries 10 es <;> simp [Except.map]
  | .pyObj ty mod strForm lenForm =>
    match strForm, lenForm with
    | none, _ => simp [serializeTry]
    | some s, none => simp [serializeTry]
    | some s, some none => simp [serializeTry]
    | some s, some (some n) => simp [serializeTry]

/-! ## Claim theorems -/

set_option maxRecDepth 4000 in
/-- Claim C1 — the claim is right and the code is wrong.  In a
registered state, a monitored synchronous call whose target returns `42`
does emit exactly one `call_enter` and one `call_exit` with
`success = true`, the same correlation id and a later exit timestamp,
but the wrapper hands `None` back to the caller instead of `42`
(`return result` was mangled into `return None  # ...esult`), and the
decorator factory `monitor_function` itself returns `None` instead of a
decorator. -/
theorem executeFunction_returns_none_on_success :
    monitorFunction (some "f") = none ∧
    executeFunction ⟨true, some 7, []⟩ "id-1" "f" [] 1000 5 (.ok (.pyInt 42)) =
      (⟨true, some 7,
        [.executionData (callEnterEvent "id-1" "f" 1000 []),
         .executionData (callSuccessEvent "id-1" "f" 1005 5 .serNone)]⟩,
       .ok none) := by
  refine ⟨rfl, ?_⟩
  have hs : serializeValue (.pyInt 42) = .ok .serNone := by
    simp [serializeValue, serializeTry]
  simp [executeFunction, hs, sendExecutionEvent]

/-- Claim C2, counterexample — a wrapped call that raises
`ValueError()` (whose `str` form is empty) produces a `call_exit` whose
`error` field is the empty string, so the event does not carry a
non-empty error description. -/
theorem callExit_error_description_can_be_empty :
    (executeFunction ⟨true, some 7, []⟩ "id-2" "f" [] 1000 5
        (.error ⟨"ValueError", ""⟩)).1.sent =
      [.executionData (callEnterEvent "id-2" "f" 1000 []),
       .executionData (callErrorEvent "id-2" "f" 1005 5 ⟨"ValueError", ""⟩)] ∧
    (callErrorEvent "id-2" "f" 1005 5 ⟨"ValueError", ""⟩).success = some false ∧
    (callErrorEvent "id-2" "f" 1005 5 ⟨"ValueError", ""⟩).error = some "" := by
  refine ⟨?_, rfl, rfl⟩
  simp [executeFunction, sendExecutionEvent]

/-- Claim C2 as amended: for every wrapped call whose body raises, in a
registered state the interceptor emits a `call_exit` with
`success = false` carrying the error's textual description (which may be
empty when `str(e)` is empty) and a non-empty stack trace, and then
re-raises the original error unchanged to the wrapper's caller. -/
theorem executeFunction_error_path (st : AgentState) (callId name : String)
    (params : List (String × Ser)) (t d : Nat) (e : PyErr)
    (hc : st.connected = true) (ha : st.appId.isSome = true) :
    (executeFunction st callId name params t d (.error e)).2 = .error e ∧
    (executeFunction st callId name params t d (.error e)).1.sent =
      st.sent ++ [.executionData (callEnterEvent callId name t params),
                  .executionData (callErrorEvent callId name (t + d) d e)] ∧
    (callErrorEvent callId name (t + d) d e).success = some false ∧
    (callErrorEvent callId name (t + d) d e).error = some e.msg ∧
    (callErrorEvent callId name (t + d) d e).stackTrace = some (traceOf e) ∧
    0 < (traceOf e).length := by
  have hlen : 0 < (traceOf e).length := by
    simp only [traceOf, String.length_append]
    have h₀ : 0 < ("Traceback (most recent call last): ").length := by decide
    omega
  refine ⟨?_, ?_, rfl, rfl, rfl, hlen⟩
  · simp [executeFunction]
  · simp [executeFunction, sendExecutionEvent, hc, ha]

/-- Witness for the amended C2 at a concrete registered state and
error. -/
theorem executeFunction_error_path_witness :
    (executeFunction ⟨true, some 3, []⟩ "w" "g" [] 10 2
        (.error ⟨"KeyError", "k"⟩)).2 = .error ⟨"KeyError", "k"⟩ := by
  exact (executeFunction_error_path ⟨true, some 3, []⟩ "w" "g" [] 10 2
    ⟨"KeyError", "k"⟩ rfl rfl).1

/-- Claim C3, counterexample — serialization is not total: for an
object whose `__str__` raises, the `except` handler's fallback
`str(value)[:100]` raises again and the exception escapes
`_serialize_value`. -/
theorem serializeValue_raises_on_broken_str :
    serializeValue (.pyObj "Broken" "app" none none) = .error () := by
  simp [serializeValue, serializeTry, strOf]

/-- Claim C3 as amended: for every value whose textual conversion
succeeds, `_serialize_value` returns a result and never raises, and any
`serialization_error` fallback it returns carries a textual form
truncated to at most 100 characters. -/
theorem serializeValue_total_on_printable :
    (∀ v s, strOf v = some s → (serializeValue v).isOk = true) ∧
    (∀ v r, serializeValue v = .ok (.serError r) → r.length ≤ 100) := by
  constructor
  · intro v s h
    unfold serializeValue
    cases htry : serializeTry v <;> simp [htry, h, Except.isOk, Except.toBool]
  · intro v r h
    unfold serializeValue at h
    cases htry : serializeTry v with
    | ok r' =>
      rw [htry] at h
      simp at h
      subst h
      exact absurd htry (serializeTry_ne_serError v r)
    | error e =>
      rw [htry] at h
      cases hs : strOf v with
      | none => rw [hs] at h; simp at h
      | some s =>
        rw [hs] at h
        simp at h
        rw [← h]
        exact strTrunc_length_le 100 s

/-- Witness for the amended C3 at a concrete serializable value. -/
theorem serializeValue_total_on_printable_witness :
    (serializeValue .pyNone).isOk = true :=
  serializeValue_total_on_printable.1 .pyNone "None" (by simp [strOf])

/-- Claim C4 — the claim is right and the code is wrong.  The sequence
branch of `_serialize_value` was mangled
(`return None  # ...self._serialize_value(item) for item in value[:10]]`),
so `serialize(list(range(100)))` evaluates to Python `None` rather than
to the first 10 recursively serialized elements. -/
theorem serializeValue_range100_is_none :
    serializeValue (.pyList ((List.range 100).map fun i => .pyInt i)) =
      .ok .serNone := by
  simp [serializeValue, serializeTry]

/-- Claim C5, counterexample — in the state `connected = true` with no
application id assigned, one step of the periodic `emit_monitoring_data`
loop publishes a `function_monitoring_data` message on the channel: that
telemetry publication checks only the connected flag, not the
application id. -/
theorem emitMonitoringStep_sends_without_appId :
    (emitMonitoringStep ⟨true, none, []⟩ "f" 0).1.sent =
      [.functionMonitoringData "f" 1 110] := by
  simp [emitMonitoringStep]

/-- Claim C5 as amended: `call_enter`/`call_exit` (via
`_send_execution_event`) and workflow `node_data` check both the
connected flag and the application id and otherwise leave the agent
state entirely unchanged (no message, no buffering); the periodic
function-monitoring emitter checks only the connected flag — it stops
when disconnected but publishes even when no application id is
assigned. -/
theorem telemetry_gating (st : AgentState) (e : ExecEvent)
    (nodes connections : List String) (fn : String) (c : Nat) :
    (¬(st.connected = true ∧ st.appId.isSome = true) →
      sendExecutionEvent st e = st ∧ defineWorkflowNodes st nodes connections = st) ∧
    (st.connected = false → emitMonitoringStep st fn c = (st, none)) := by
  constructor
  · intro h
    constructor
    · simp only [sendExecutionEvent]
      rw [if_neg]
      simpa using h
    · simp only [defineWorkflowNodes]
      rw [if_neg]
      simpa using h
  · intro h
    simp [emitMonitoringStep, h]

/-- Witness for the amended C5 in the initial disconnected state. -/
theorem telemetry_gating_witness :
    sendExecutionEvent ⟨false, none, []⟩ (callEnterEvent "i" "f" 0 []) =
      ⟨false, none, []⟩ ∧
    emitMonitoringStep ⟨false, none, []⟩ "f" 0 = (⟨false, none, []⟩, none) := by
  have h := telemetry_gating ⟨false, none, []⟩ (callEnterEvent "i" "f" 0 []) [] [] "f" 0
  exact ⟨(h.1 (by simp)).1, h.2 rfl⟩

/-- Claim C6, counterexample — after the transport-level `disconnect`
notification, and likewise after an explicit `disconnect_from_hub`
request, an agent that held application id 7 still holds it: the
transition into the disconnected state does not clear the assigned
application id. -/
theorem disconnect_keeps_appId :
    (onDisconnect ⟨true, some 7, []⟩).appId = some 7 ∧
    (disconnectFromHub ⟨true, some 7, []⟩).appId = some 7 := by
  constructor <;> simp [onDisconnect, disconnectFromHub]

/-- Claim C6 as amended: every transition into the disconnected state
unsets the connected flag but leaves the assigned application id
untouched. -/
theorem disconnect_clears_connected_only (st : AgentState) :
    (onDisconnect st).connected = false ∧ (onDisconnect st).appId = st.appId ∧
    (disconnectFromHub st).connected = false ∧
    (disconnectFromHub st).appId = st.appId := by
  refine ⟨rfl, rfl, ?_, ?_⟩ <;>
    · simp only [disconnectFromHub]
      by_cases h : st.connected <;> simp [h, onDisconnect]

/-- Every result dict the post-join continuation builds has one of the
two claimed shapes: the success dict (`success = true`, `exitCode = 0`)
or the failure dict (`success = false`, `exitCode = 1`, with an error
trace). -/
theorem sandboxResult_shape (outcome : ExecOutcome) (timeout : Nat)
    (stream : OutStream) :
    ((executePythonCode outcome timeout stream).1.success = true ∧
      (executePythonCode outcome timeout stream).1.exitCode = 0) ∨
    ((executePythonCode outcome timeout stream).1.success = false ∧
      (executePythonCode outcome timeout stream).1.exitCode = 1 ∧
      (executePythonCode outcome timeout stream).1.error.isSome = true) := by
  cases h : futureResult outcome timeout with
  | ok p => left; cases p; simp [executePythonCode, h]
  | error e => right; simp [executePythonCode, h]

/-- Claim C7, counterexample — sandboxed execution is not total: for a
code string that never finishes, even with an ample timeout, the call
returns no result object at all.  The raised timeout exception must
leave the `with ThreadPoolExecutor(...)` block, and its exit runs
`shutdown(wait=True)`, which joins the still-running worker forever, so
the `except` handler converting failures into a result dict is never
reached. -/
theorem sandbox_no_result_on_divergence :
    executePythonCodeRun .diverges 30 .original = none := rfl

/-- Claim C7 as amended: sandboxed execution never raises past its own
boundary, and whenever the submitted code eventually finishes (normally
or by raising) the call returns a result object — `success = true`,
`exitCode = 0` with the captured output on completion within the
deadline (running `print(1+1)` with ample timeout returns output
`"2\n"`, which contains `"2"`), and `success = false`, `exitCode = 1`
with an error trace on every failure; for code that never finishes the
call never returns, blocked in the executor shutdown join. -/
theorem executePythonCode_total_on_finishing :
    (∀ (outcome : ExecOutcome) (timeout : Nat) (stream : OutStream)
        (r : SandboxResult) (s : OutStream),
      executePythonCodeRun outcome timeout stream = some (r, s) →
      ((r.success = true ∧ r.exitCode = 0) ∨
        (r.success = false ∧ r.exitCode = 1 ∧ r.error.isSome = true))) ∧
    executePythonCodeRun printOnePlusOne 30 .original =
      some (⟨"2\n", some [], none, 0, true⟩, .original) ∧
    '2' ∈ "2\n".data := by
  refine ⟨?_, ?_, by simp⟩
  · intro outcome timeout stream r s h
    cases outcome with
    | completed output locals secs =>
      simp only [executePythonCodeRun, Option.some.injEq] at h
      have hx := sandboxResult_shape (.completed output locals secs) timeout stream
      rw [h] at hx
      simpa using hx
    | raised e secs =>
      simp only [executePythonCodeRun, Option.some.injEq] at h
      have hx := sandboxResult_shape (.raised e secs) timeout stream
      rw [h] at hx
      simpa using hx
    | diverges => simp [executePythonCodeRun] at h
  · simp [executePythonCodeRun, executePythonCode, printOnePlusOne, futureResult,
      collectVariables]

/-- Witness for the amended C7: applying the totality-on-finishing part
to the `print(1+1)` run. -/
theorem executePythonCode_total_on_finishing_witness :
    (((⟨"2\n", some [], none, 0, true⟩ : SandboxResult).success = true ∧
      (⟨"2\n", some [], none, 0, true⟩ : SandboxResult).exitCode = 0) ∨
     ((⟨"2\n", some [], none, 0, true⟩ : SandboxResult).success = false ∧
      (⟨"2\n", some [], none, 0, true⟩ : SandboxResult).exitCode = 1 ∧
      (⟨"2\n", some [], none, 0, true⟩ : SandboxResult).error.isSome = true)) :=
  executePythonCode_total_on_finishing.1 printOnePlusOne 30 .original
    ⟨"2\n", some [], none, 0, true⟩ .original
    (by simp [executePythonCodeRun, executePythonCode, printOnePlusOne, futureResult,
      collectVariables])

/-- Claim C8, counterexample — on the error path the redirected
standard-output stream is not restored: after a sandboxed execution
whose code raises, `sys.stdout` still points at the capture buffer, not
at the original stream the execution started from. -/
theorem stdout_not_restored_on_error :
    (executePythonCode (.raised ⟨"ValueError", "boom"⟩ 0) 30 .original).2 =
      .captured ∧
    (executePythonCode (.raised ⟨"ValueError", "boom"⟩ 0) 30 .original).1.success =
      false ∧
    OutStream.captured ≠ OutStream.original := by
  refine ⟨?_, ?_, by decide⟩ <;> simp [executePythonCode, futureResult]

/-- Claim C8 as amended: the standard-output stream is redirected to the
in-memory buffer for the duration of execution and the original stream
is restored on the success path; on the failure paths (timeout and
execution errors) the stream is left pointing at the capture buffer and
is not restored. -/
theorem stdout_restored_on_success_only (outcome : ExecOutcome) (timeout : Nat)
    (stream : OutStream) :
    (∀ output locals, futureResult outcome timeout = .ok (output, locals) →
      (executePythonCode outcome timeout stream).2 = stream) ∧
    (∀ e, futureResult outcome timeout = .error e →
      (executePythonCode outcome timeout stream).2 = .captured) := by
  constructor
  · intro output locals h
    simp [executePythonCode, h]
  · intro e h
    simp [executePythonCode, h]

/-- Witness for the amended C8: an immediately completing execution
hands the original stream back. -/
theorem stdout_restored_on_success_only_witness :
    (executePythonCode (.completed "x" [] 0) 30 .original).2 = .original :=
  (stdout_restored_on_success_only (.completed "x" [] 0) 30 .original).1 "x" []
    (by simp [futureResult])

/-- Claim C9, counterexample — the claim's own example fails: a
sandboxed execution of an infinite loop with `timeout = 1` never
returns any result, let alone within roughly one second.  After
`future.result(timeout=1)` raises at the one-second mark, the exit of
the `with ThreadPoolExecutor(...)` block runs `shutdown(wait=True)`,
which joins the never-finishing worker forever. -/
theorem infinite_loop_timeout_never_returns :
    executePythonCodeRun .diverges 1 .original = none ∧
    totalWaitSecs .diverges = none :=
  ⟨rfl, rfl⟩

/-- Claim C9 as amended: for every sandboxed execution whose code does
not complete within the given timeout, the call returns the timeout
failure result (`success = false`, `exitCode = 1`, output holding the
timeout description) exactly when the submitted code eventually
finishes on its own — and it does so only after the worker's full
running time, which is strictly longer than the timeout, because the
executor shutdown joins the worker before the timeout exception can
reach the `except` handler; for code that never finishes, the call
never returns at all. -/
theorem executePythonCode_timeout_waits_for_worker (outcome : ExecOutcome)
    (timeout : Nat) (stream : OutStream) (h : ¬ finishesWithin outcome timeout) :
    executePythonCodeRun outcome timeout stream =
      (totalWaitSecs outcome).map (fun _ =>
        (⟨"Code execution timed out after " ++ toString timeout ++ " seconds",
          none, some (traceOf (timeoutErr timeout)), 1, false⟩, .captured)) ∧
    (∀ secs, totalWaitSecs outcome = some secs → timeout < secs) := by
  cases outcome with
  | completed output locals secs =>
    simp only [finishesWithin, Nat.not_le] at h
    constructor
    · simp [executePythonCodeRun, executePythonCode, futureResult,
        Nat.not_le.mpr h, totalWaitSecs, timeoutErr]
    · intro secs' hs
      simp only [totalWaitSecs, Option.some.injEq] at hs
      omega
  | raised e secs =>
    simp only [finishesWithin, Nat.not_le] at h
    constructor
    · simp [executePythonCodeRun, executePythonCode, futureResult,
        Nat.not_le.mpr h, totalWaitSecs, timeoutErr]
    · intro secs' hs
      simp only [totalWaitSecs, Option.some.injEq] at hs
      omega
  | diverges =>
    exact ⟨by simp [executePythonCodeRun, totalWaitSecs], by
      intro secs hs; simp [totalWaitSecs] at hs⟩

/-- Witness for the amended C9: a worker that needs 5 seconds under
`timeout = 1` makes the call return the timeout failure dict, after the
worker's 5 seconds rather than after 1. -/
theorem executePythonCode_timeout_waits_for_worker_witness :
    executePythonCodeRun (.completed "x" [] 5) 1 .original =
      some (⟨"Code execution timed out after 1 seconds", none,
        some (traceOf (timeoutErr 1)), 1, false⟩, .captured) ∧
    1 < 5 := by
  have h := executePythonCode_timeout_waits_for_worker (.completed "x" [] 5) 1
    .original (by simp [finishesWithin])
  exact ⟨by rw [h.1]; rfl, h.2 5 rfl⟩

/-- Claim C10 — the claim is right and the code is wrong.  The failure
half holds: a module that cannot be located raises the import-specific
`Failed to import module '...'` description wrapping the cause, which
the caller's handler reports.  But on a successful import the
`module_info` dict is built — with `imported = true` and the classified
public members — and then discarded by the mangled
`return None  # ...odule_info`, so the introspector hands `None` to its
caller instead of the result. -/
theorem importModule_success_returns_none :
    importModule "json" ""
        (.found (some "/usr/lib/python3.11/json/__init__.py")
          [("dumps", .func), ("loads", .func), ("JSONDecodeError", .cls),
           ("codecs", .callableOther), ("__version__", .value "str" true)]) =
      .ok none ∧
    buildModuleInfo "json" "" (some "/usr/lib/python3.11/json/__init__.py")
        [("dumps", .func), ("loads", .func), ("JSONDecodeError", .cls),
         ("codecs", .callableOther), ("__version__", .value "str" true)] =
      ⟨"json", "json", true, "/usr/lib/python3.11/json/__init__.py",
        ["dumps", "loads"], ["JSONDecodeError"], []⟩ ∧
    importModule "nonexistent_mod" "" (.importError "No module named 'nonexistent_mod'") =
      .error ⟨"Exception",
        "Failed to import module 'nonexistent_mod': No module named 'nonexistent_mod'"⟩ := by
  exact ⟨rfl, rfl, rfl⟩

end RuntimeMonitor
